import Mathlib

/-!
Shallow embedding of `src/eink_client/main.py` (an embedded MicroPython
poll-loop client) and verification of the claims made by the specification about it.

Modelling conventions:

* Python values that can flow through this program (the result of
  `response.json()`, the fetch result, every field of the payload) are
  modelled by the inductive type `Json`.  The Python value `None` is `Json.null`:
  in the source, `fetch_data` returns `None` on failure and `response.json()`
  returns `None` for a JSON `null` body, and both are the very same Python
  value.  JSON numbers are modelled as integers (the spec only ever speaks
  of integer fields).
* Python dictionaries are association lists looked up by first occurrence;
  the JSON parser produces dictionaries with distinct keys, so the
  distinction from a real Python dict never matters here.
* Operations that can raise (`x[k]`, `k in x`, `x.get(k, d)`, iteration)
  return `Except PyErr _`; a raised, uncaught Python exception is an
  `Except.error`.
* `print` output is collected as a list of printed lines, in order.
  A function that can both print and raise returns the lines printed
  before the fault together with an `Option PyErr`.
* The network is external: `fetch_data` is parameterised by the outcome of
  the single `urequests.get` call (`HttpOutcome`), i.e. either a raised
  transport exception or a response carrying a status code and the result
  of parsing its body as JSON.
-/

/-- Python/JSON values as they occur in this program.  `null` doubles as
the Python `None` (they are the same value in Python). -/
inductive Json where
  | null
  | bool (b : Bool)
  | num (n : Int)
  | str (s : String)
  | arr (items : List Json)
  | obj (fields : List (String × Json))

/-- The Python exceptions this program can raise. -/
inductive PyErr where
  /-- e.g. the int type is not iterable; list indices must be integers. -/
  | typeError
  /-- e.g. the NoneType object has no attribute get. -/
  | attributeError
  /-- missing dictionary key. -/
  | keyError (k : String)
deriving DecidableEq

/-- First-match lookup in an association list (Python dict indexing /
`dict.get`, the parser producing distinct keys). -/
def dict_lookup (fields : List (String × Json)) (k : String) : Option Json :=
  match fields with
  | [] => none
  | (k', v) :: rest => if k' = k then some v else dict_lookup rest k

/-- Does `needle` occur as a leading segment of `hay`? -/
def chars_lead : List Char → List Char → Bool
  | [], _ => true
  | _ :: _, [] => false
  | a :: as, b :: bs => a == b && chars_lead as bs

/-- Does `needle` occur as a contiguous segment of `hay`?  (The Python
substring membership test.) -/
def chars_within (needle : List Char) (hay : List Char) : Bool :=
  match hay with
  | [] => needle.isEmpty
  | _ :: rest => chars_lead needle hay || chars_within needle rest

/-- Python truthiness of a value (`if not data` in `display_data`):
`None`, `False`, `0`, and empty containers/strings are falsy. -/
def py_truthy : Json → Bool
  | Json.null => false
  | Json.bool b => b
  | Json.num n => n != 0
  | Json.str s => !s.isEmpty
  | Json.arr items => !items.isEmpty
  | Json.obj fields => !fields.isEmpty

mutual

/-- Python `str(v)` via `repr` for containers: used by f-string
interpolation and multi-argument `print`. -/
def py_repr : Json → String
  | Json.null => "None"
  | Json.bool true => "True"
  | Json.bool false => "False"
  | Json.num n => toString n
  | Json.str s => "\x27" ++ s ++ "\x27"
  | Json.arr items => "[" ++ py_repr_items items ++ "]"
  | Json.obj fields => "\x7b" ++ py_repr_fields fields ++ "\x7d"

/-- Comma-joined `repr`s of list elements. -/
def py_repr_items : List Json → String
  | [] => ""
  | [v] => py_repr v
  | v :: rest => py_repr v ++ ", " ++ py_repr_items rest

/-- Comma-joined `repr`s of dict entries. -/
def py_repr_fields : List (String × Json) → String
  | [] => ""
  | [(k, v)] => "\x27" ++ k ++ "\x27: " ++ py_repr v
  | (k, v) :: rest => "\x27" ++ k ++ "\x27: " ++ py_repr v ++ ", " ++ py_repr_fields rest

end

/-- Python `str(v)`: like `repr` except that a string is rendered
without quotes. -/
def py_str : Json → String
  | Json.str s => s
  | v => py_repr v

/-- Python membership test `k in v` for a string needle `k`.
Dicts test key membership, lists test element equality (a string only ever
equals a string), strings test substring containment; `None`, booleans
and numbers are not iterable and raise `TypeError`. -/
def py_contains (k : String) : Json → Except PyErr Bool
  | Json.obj fields => .ok (fields.any (fun kv => kv.1 == k))
  | Json.arr items =>
      .ok (items.any (fun v => match v with
        | Json.str s => s == k
        | _ => false))
  | Json.str s => .ok (chars_within k.toList s.toList)
  | _ => .error PyErr.typeError

/-- Python subscript `v[k]` for a string key `k`: dict lookup
(raising `KeyError` when absent); string and list subscripts require
integer indices, and other values are not subscriptable, so every
non-dict raises `TypeError`. -/
def py_getitem (v : Json) (k : String) : Except PyErr Json :=
  match v with
  | Json.obj fields =>
      match dict_lookup fields k with
      | some w => .ok w
      | none => .error (PyErr.keyError k)
  | _ => .error PyErr.typeError

/-- Python `v.get(k, default)`: only dicts have a `get` attribute; every
other value (including `None`) raises `AttributeError`. -/
def py_dict_get (v : Json) (k : String) (default : Json) : Except PyErr Json :=
  match v with
  | Json.obj fields => .ok ((dict_lookup fields k).getD default)
  | _ => .error PyErr.attributeError

/-- Python iteration `for x in v`: lists yield their elements, strings
their one-character substrings, dicts their keys; `None`, booleans and
numbers are not iterable. -/
def py_iter : Json → Except PyErr (List Json)
  | Json.arr items => .ok items
  | Json.str s => .ok (s.toList.map (fun c => Json.str (String.mk [c])))
  | Json.obj fields => .ok (fields.map (fun kv => Json.str kv.1))
  | _ => .error PyErr.typeError

/-- Configuration constant from `main.py` line 8. -/
def API_URL : String := "http://YOUR_LOCAL_IP:8080/api/eink/relevant"

/-- Configuration constant from `main.py` line 9. -/
def DEVICE_TOKEN : String := "your_secure_device_token"

/-- Embeds `main.py` line 24: the query-parameter string
`f"?token={DEVICE_TOKEN}&bat={battery_level}&res=800x600"`. -/
def request_params (battery_level : Int) : String :=
  "?token=" ++ DEVICE_TOKEN ++ "&bat=" ++ toString battery_level ++ "&res=800x600"

/-- Embeds `main.py` line 25: the URL the GET request is issued against,
`API_URL + params`. -/
def request_url (battery_level : Int) : String :=
  API_URL ++ request_params battery_level

/-- The outcome of the single `urequests.get(...)` call together with the
body parse: either the call raised (transport failure), or it produced a
response with a status code whose body `.json()` either parses to a value
or raises. -/
inductive HttpOutcome where
  | raised (msg : String)
  | response (status_code : Nat) (body : Except String Json)

/-- Embeds `main.py` lines 21–32, `fetch_data`: on a 200 response, return the
parsed JSON body; on any other status, log `Error: Status code …` and
return `None`; if the request or the body parse raised, the `except`
clause logs `Request failed: …` and `None` is returned.  Result: the
printed lines and the returned value (`Json.null` is the Python `None`). -/
def fetch_data (battery_level : Int) (outcome : HttpOutcome) : List String × Json :=
  match outcome with
  | HttpOutcome.raised msg => (["Request failed: " ++ msg], Json.null)
  | HttpOutcome.response status_code body =>
      if status_code = 200 then
        match body with
        | .ok j => ([], j)
        | .error msg => (["Request failed: " ++ msg], Json.null)
      else
        (["Error: Status code " ++ toString status_code], Json.null)
  -- `battery_level` only influences the request URL, which is part of
  -- the provenance of `outcome`; see `request_url`.

/-- Embeds `main.py` lines 41–42: the task loop body, rendering
the f-string line with the priority and title of each task in order.
Returns the lines printed before any fault, and the fault if one
occurred. -/
def render_tasks : List Json → List String × Option PyErr
  | [] => ([], none)
  | t :: rest =>
      match py_getitem t "priority" with
      | .error e => ([], some e)
      | .ok p =>
          match py_getitem t "title" with
          | .error e => ([], some e)
          | .ok ti =>
              (("- [" ++ py_str p ++ "] " ++ py_str ti) :: (render_tasks rest).1,
               (render_tasks rest).2)

/-- Embeds `main.py` lines 34–43, `display_data`: guard
first the falsiness-or-membership test on the data argument, then the banner,
`Workspace: …`, `Tasks:`, one line per task, and the footer.  The printed
lines are accumulated in program order, so a fault keeps the lines printed
before it (the banner is printed before the workspace value is looked
up, and the subscript on the data key is evaluated a second time for the
task loop, exactly as in the source). -/
def display_data (data : Json) : List String × Option PyErr :=
  if py_truthy data then
    match py_contains "data" data with
    | .error e => ([], some e)
    | .ok b =>
      if b then
        match (py_getitem data "data").bind (fun inner => py_getitem inner "workspace") with
        | .error e => (["--- E-Ink Update ---"], some e)
        | .ok w =>
          match (py_getitem data "data").bind (fun inner => py_getitem inner "tasks") with
          | .error e =>
              (["--- E-Ink Update ---", "Workspace: " ++ py_str w, "Tasks:"], some e)
          | .ok tv =>
            match py_iter tv with
            | .error e =>
                (["--- E-Ink Update ---", "Workspace: " ++ py_str w, "Tasks:"], some e)
            | .ok ts =>
                match (render_tasks ts).2 with
                | some e =>
                    (["--- E-Ink Update ---", "Workspace: " ++ py_str w, "Tasks:"]
                      ++ (render_tasks ts).1, some e)
                | none =>
                    (["--- E-Ink Update ---", "Workspace: " ++ py_str w, "Tasks:"]
                      ++ (render_tasks ts).1 ++ ["--------------------"], none)
      else ([], none)
  else ([], none)

/-- Embeds `main.py` lines 45–48, `get_battery`: the stubbed battery reader,
a constant 85. -/
def get_battery : Int := 85

/-- Embeds `main.py` line 59: the chained dict-get of the config key and then the
refresh-interval key (default 1800) — the sleep-duration lookup on the
fetch result. -/
def sleep_lookup (data : Json) : Except PyErr Json :=
  match py_dict_get data "config" (Json.obj []) with
  | .error e => .error e
  | .ok cfg => py_dict_get cfg "refresh_interval" (Json.num 1800)

/-- Embeds `main.py` lines 53–61: the body of one `while True` iteration after the
fetch — render, look up the sleep duration, print `Sleeping for …s...`.
Returns the printed lines and either the uncaught fault (which terminates
the process) or the value handed to `time.sleep`. -/
def loop_iteration (data : Json) : List String × Except PyErr Json :=
  match (display_data data).2 with
  | some e => ((display_data data).1, .error e)
  | none =>
      match sleep_lookup data with
      | .error e => ((display_data data).1, .error e)
      | .ok w =>
          ((display_data data).1 ++ ["Sleeping for " ++ py_str w ++ "s..."], .ok w)

/-- One full loop iteration including the fetch, for a given HTTP outcome. -/
def loop_step (outcome : HttpOutcome) : List String × Except PyErr Json :=
  ((fetch_data get_battery outcome).1
     ++ (loop_iteration (fetch_data get_battery outcome).2).1,
   (loop_iteration (fetch_data get_battery outcome).2).2)

/-- The shape of fetch results on which the sleep-duration lookup does not
fault: a dict whose `config` entry, when present, is itself a dict.
(Characterisation vocabulary for the theorems below.) -/
def config_shape_ok : Json → Bool
  | Json.obj fields =>
      match dict_lookup fields "config" with
      | none => true
      | some (Json.obj _) => true
      | some _ => false
  | _ => false

/-- Does a value have a top-level dictionary key `k`?  (A non-dict has no
keys.)  Claim vocabulary, distinct from the faulting runtime test
`py_contains`. -/
def has_top_key (k : String) : Json → Bool
  | Json.obj fields => fields.any (fun kv => kv.1 == k)
  | _ => false

/-- A task record as in the wire-format example of the spec:
`{"priority": p, "title": t}`. -/
def mk_task (p t : String) : Json :=
  Json.obj [("priority", Json.str p), ("title", Json.str t)]

/-- A well-formed payload as in the wire-format example of the spec:
`{"data": {"workspace": W, "tasks": [...]}}`. -/
def mk_payload (w : String) (tasks : List (String × String)) : Json :=
  Json.obj [("data", Json.obj
    [("workspace", Json.str w),
     ("tasks", Json.arr (tasks.map (fun pt => mk_task pt.1 pt.2)))])]

/-- Substring containment at the level of Lean strings, used to state the
URL claims. -/
def contains_sub (s piece : String) : Prop :=
  ∃ pre post, s = pre ++ piece ++ post

/-! ### Helper lemmas -/

theorem dict_lookup_any (fs : List (String × Json)) (k : String) :
    fs.any (fun kv => kv.1 == k) = (dict_lookup fs k).isSome := by
  induction fs with
  | nil => simp [dict_lookup]
  | cons hd tl ih =>
    obtain ⟨k', w⟩ := hd
    rw [dict_lookup]
    by_cases hk : k' = k
    · simp [hk]
    · simp [hk, ih]

theorem render_tasks_none {ts : List Json} (h : (render_tasks ts).2 = none) :
    ∀ t ∈ ts, ∃ p ti,
      py_getitem t "priority" = Except.ok p ∧ py_getitem t "title" = Except.ok ti := by
  induction ts with
  | nil => intro t ht; cases ht
  | cons a rest ih =>
    intro t ht
    rw [render_tasks] at h
    rcases hp : py_getitem a "priority" with e | p
    · rw [hp] at h; simp at h
    · rw [hp] at h
      rcases hti : py_getitem a "title" with e | ti
      · rw [hti] at h; simp at h
      · rw [hti] at h
        simp only at h
        rcases List.mem_cons.mp ht with rfl | hmem
        · exact ⟨p, ti, hp, hti⟩
        · exact ih h t hmem

theorem display_data_none_cases {data : Json} (h : (display_data data).2 = none) :
    py_truthy data = false ∨ py_contains "data" data = Except.ok false ∨
      ∃ inner w tv ts,
        py_getitem data "data" = Except.ok inner ∧
        py_getitem inner "workspace" = Except.ok w ∧
        py_getitem inner "tasks" = Except.ok tv ∧
        py_iter tv = Except.ok ts ∧
        (render_tasks ts).2 = none := by
  by_cases ht : py_truthy data = true
  · rcases hc : py_contains "data" data with e | b
    · rw [display_data, if_pos ht, hc] at h; simp at h
    · cases b with
      | false => exact Or.inr (Or.inl rfl)
      | true =>
        right; right
        rcases hd : py_getitem data "data" with e | inner
        · rw [display_data, if_pos ht, hc] at h
          simp only [hd, if_pos, Except.bind] at h
          simp at h
        · rcases hw : py_getitem inner "workspace" with e | w
          · rw [display_data, if_pos ht, hc] at h
            simp only [hd, Except.bind, hw, if_pos] at h
            simp at h
          · rcases htv : py_getitem inner "tasks" with e | tv
            · rw [display_data, if_pos ht, hc] at h
              simp only [hd, Except.bind, hw, htv, if_pos] at h
              simp at h
            · rcases hit : py_iter tv with e | ts
              · rw [display_data, if_pos ht, hc] at h
                simp only [hd, Except.bind, hw, htv, hit, if_pos] at h
                simp at h
              · rcases hrt : (render_tasks ts).2 with _ | e
                · exact ⟨inner, w, tv, ts, rfl, hw, htv, hit, hrt⟩
                · rw [display_data, if_pos ht, hc] at h
                  simp only [hd, Except.bind, hw, htv, hit, hrt, if_pos] at h
                  simp at h
  · left
    exact Bool.not_eq_true _ ▸ (by simpa using ht)

theorem render_tasks_map (pts : List (String × String)) :
    render_tasks (pts.map (fun pt => mk_task pt.1 pt.2)) =
      (pts.map (fun pt => "- [" ++ pt.1 ++ "] " ++ pt.2), none) := by
  induction pts with
  | nil => rfl
  | cons a rest ih =>
    obtain ⟨p, t⟩ := a
    have hp : py_getitem (mk_task p t) "priority" = Except.ok (Json.str p) := rfl
    have hti : py_getitem (mk_task p t) "title" = Except.ok (Json.str t) := rfl
    simp only [List.map_cons]
    rw [render_tasks, hp, hti]
    simp [ih, py_str]

theorem display_mk_payload (w : String) (pts : List (String × String)) :
    display_data (mk_payload w pts) =
      (["--- E-Ink Update ---", "Workspace: " ++ w, "Tasks:"]
        ++ pts.map (fun pt => "- [" ++ pt.1 ++ "] " ++ pt.2)
        ++ ["--------------------"], none) := by
  have h1 : py_truthy (mk_payload w pts) = true := rfl
  have h2 : py_contains "data" (mk_payload w pts) = Except.ok true := rfl
  have h3 : (py_getitem (mk_payload w pts) "data").bind
      (fun inner => py_getitem inner "workspace") = Except.ok (Json.str w) := rfl
  have h4 : (py_getitem (mk_payload w pts) "data").bind
      (fun inner => py_getitem inner "tasks") =
        Except.ok (Json.arr (pts.map (fun pt => mk_task pt.1 pt.2))) := rfl
  rw [display_data, if_pos h1, h2]
  simp only [h3, h4, py_iter, render_tasks_map, py_str, if_true]

theorem sleep_lookup_ok_iff (data : Json) :
    (∃ w, sleep_lookup data = Except.ok w) ↔ config_shape_ok data = true := by
  cases data
  case obj fields =>
    rcases h : dict_lookup fields "config" with _ | cfg
    · simp [sleep_lookup, py_dict_get, h, config_shape_ok]
    · cases cfg <;> simp [sleep_lookup, py_dict_get, h, config_shape_ok]
  all_goals simp [sleep_lookup, py_dict_get, config_shape_ok]

/-! ### Claims -/

/-- C1 (counterexample): a loop iteration in which the fetch yields a
present payload — HTTP 200 with body `{"config": 5}` — still faults at the
sleep-duration lookup (`.get` on the non-dict `config` value raises
`AttributeError`), refuting "the lookup faults only if the fetch result is
absent". -/
theorem sleep_lookup_present_payload_fault_cex :
    (fetch_data 85 (HttpOutcome.response 200
        (Except.ok (Json.obj [("config", Json.num 5)])))).2
      = Json.obj [("config", Json.num 5)] ∧
    Json.obj [("config", Json.num 5)] ≠ Json.null ∧
    sleep_lookup (Json.obj [("config", Json.num 5)])
      = Except.error PyErr.attributeError :=
  ⟨rfl, fun h => Json.noConfusion h, rfl⟩

/-- C1 (amended): when the fetch result is absent (`None`) the loop
iteration faults at the sleep-duration lookup with `AttributeError`; in
general the lookup succeeds exactly on payloads that are dicts whose
`config` entry, when present, is itself a dict — so a present but
degenerate payload can fault there as well. -/
theorem sleep_lookup_absent_faults :
    loop_iteration Json.null = ([], Except.error PyErr.attributeError) ∧
    ∀ data : Json,
      (∃ w, sleep_lookup data = Except.ok w) ↔ config_shape_ok data = true :=
  ⟨rfl, sleep_lookup_ok_iff⟩

/-- C2: for every payload `{"data": {"workspace": W, "tasks": [...]}}`
whose tasks are `{"priority": p, "title": t}` records, `display_data`
prints the fixed banner, the workspace line, then exactly one
`- [priority] title` line per task in input order (no sorting, filtering,
or limit on count), and the footer; in particular the example
payload yields the lines `Workspace: W` and `- [high] T1`. -/
theorem display_data_renders_in_order :
    (∀ (w : String) (pts : List (String × String)),
      display_data (mk_payload w pts) =
        (["--- E-Ink Update ---", "Workspace: " ++ w, "Tasks:"]
          ++ pts.map (fun pt => "- [" ++ pt.1 ++ "] " ++ pt.2)
          ++ ["--------------------"], none)) ∧
    "Workspace: W" ∈ (display_data (mk_payload "W" [("high", "T1")])).1 ∧
    "- [high] T1" ∈ (display_data (mk_payload "W" [("high", "T1")])).1 := by
  refine ⟨display_mk_payload, ?_, ?_⟩ <;>
    · rw [display_mk_payload]; decide

/-- C3: for every battery value b in [0,100], the URL built by the fetch
is the configured base URL followed by the query string, and contains
`bat=b`, `token=` followed by the configured token, and the literal
`res=800x600`. -/
theorem request_url_contains_params :
    ∀ b : Int, 0 ≤ b → b ≤ 100 →
      request_url b = API_URL ++ request_params b ∧
      contains_sub (request_url b) ("bat=" ++ toString b) ∧
      contains_sub (request_url b) ("token=" ++ DEVICE_TOKEN) ∧
      contains_sub (request_url b) "res=800x600" := by
  intro b _ _
  refine ⟨rfl,
    ⟨API_URL ++ "?token=" ++ DEVICE_TOKEN ++ "&", "&res=800x600", ?_⟩,
    ⟨API_URL ++ "?", "&bat=" ++ toString b ++ "&res=800x600", ?_⟩,
    ⟨API_URL ++ "?token=" ++ DEVICE_TOKEN ++ "&bat=" ++ toString b ++ "&", "", ?_⟩⟩
  all_goals
    apply String.ext
    simp [request_url, request_params, String.data_append,
      String.append_empty, List.append_assoc]

/-- C3 witness, instantiated at the stubbed battery value 85. -/
theorem request_url_contains_params_w :
    request_url 85 = API_URL ++ request_params 85 ∧
    contains_sub (request_url 85) ("bat=" ++ toString (85 : Int)) ∧
    contains_sub (request_url 85) ("token=" ++ DEVICE_TOKEN) ∧
    contains_sub (request_url 85) "res=800x600" :=
  request_url_contains_params 85 (by decide) (by decide)

/-- C4 (counterexample): for the present payload `{"config": 7}` the field
`config.refresh_interval` is absent, so the claim predicts the default
1800 seconds; the code instead faults (`.get` on the non-dict `config`
value raises `AttributeError`). -/
theorem sleep_default_missing_interval_cex :
    sleep_lookup (Json.obj [("config", Json.num 7)])
      = Except.error PyErr.attributeError ∧
    sleep_lookup (Json.obj [("config", Json.num 7)]) ≠ Except.ok (Json.num 1800) :=
  ⟨rfl, fun h => Except.noConfusion h⟩

/-- C4 (amended): for every present dict payload, the next sleep duration
is `config.refresh_interval` when `config` is a dict containing that field
(e.g. 60 for `{"config":{"refresh_interval":60}}`), and the default 1800
when `config` is absent or is a dict without the field; when the `config`
entry is present but not a dict, the lookup faults instead. -/
theorem sleep_lookup_config_dict_default :
    ∀ fields : List (String × Json),
      (dict_lookup fields "config" = none →
        sleep_lookup (Json.obj fields) = Except.ok (Json.num 1800)) ∧
      (∀ g, dict_lookup fields "config" = some (Json.obj g) →
        sleep_lookup (Json.obj fields) =
          Except.ok ((dict_lookup g "refresh_interval").getD (Json.num 1800))) ∧
      (∀ c, dict_lookup fields "config" = some c → (∀ g, c ≠ Json.obj g) →
        sleep_lookup (Json.obj fields) = Except.error PyErr.attributeError) := by
  intro fields
  refine ⟨fun h => ?_, fun g h => ?_, fun c h hc => ?_⟩
  · simp [sleep_lookup, py_dict_get, h, dict_lookup]
  · simp [sleep_lookup, py_dict_get, h]
  · cases c
    case obj g => exact absurd rfl (hc g)
    all_goals simp [sleep_lookup, py_dict_get, h]

/-- C4 witness: the default, the configured 60-second interval of the
example of the spec, and the faulting degenerate case, each at a concrete
payload. -/
theorem sleep_lookup_config_dict_default_w :
    sleep_lookup (Json.obj []) = Except.ok (Json.num 1800) ∧
    sleep_lookup (Json.obj [("config", Json.obj [("refresh_interval", Json.num 60)])])
      = Except.ok (Json.num 60) ∧
    sleep_lookup (Json.obj [("config", Json.str "x")])
      = Except.error PyErr.attributeError :=
  ⟨(sleep_lookup_config_dict_default []).1 rfl,
   (sleep_lookup_config_dict_default
      [("config", Json.obj [("refresh_interval", Json.num 60)])]).2.1
      [("refresh_interval", Json.num 60)] rfl,
   (sleep_lookup_config_dict_default _).2.2 _ rfl (fun _ h => Json.noConfusion h)⟩

/-- C5: every non-200 response makes `fetch_data` log the status code and
return `None` (absence), and the renderer on `None` performs no output. -/
theorem fetch_data_non200_absent :
    ∀ (b : Int) (sc : Nat) (body : Except String Json), sc ≠ 200 →
      fetch_data b (HttpOutcome.response sc body)
        = (["Error: Status code " ++ toString sc], Json.null) ∧
      display_data Json.null = ([], none) := by
  intro b sc body h
  exact ⟨by simp [fetch_data, h], rfl⟩

/-- C5 witness at HTTP 404. -/
theorem fetch_data_non200_absent_w :
    fetch_data 85 (HttpOutcome.response 404 (Except.ok Json.null))
      = (["Error: Status code 404"], Json.null) ∧
    display_data Json.null = ([], none) :=
  fetch_data_non200_absent 85 404 (Except.ok Json.null) (by decide)

/-- C6: a raised transport exception and a body-parse exception are both
caught inside `fetch_data`: it logs `Request failed: …` and returns `None`.
No exception propagates out of the fetch boundary — the embedded function
is total, returning printed lines and a value rather than a fault. -/
theorem fetch_data_exception_absent :
    ∀ (b : Int) (msg : String),
      fetch_data b (HttpOutcome.raised msg)
        = (["Request failed: " ++ msg], Json.null) ∧
      fetch_data b (HttpOutcome.response 200 (Except.error msg))
        = (["Request failed: " ++ msg], Json.null) :=
  fun _ _ => ⟨rfl, rfl⟩

/-- C7 (counterexample): the input `5` is a present value with no
top-level `data` key, yet `display_data` is not a silent no-op: the
membership test of the data key against the number 5 raises `TypeError`. -/
theorem display_data_noop_cex :
    has_top_key "data" (Json.num 5) = false ∧
    Json.num 5 ≠ Json.null ∧
    display_data (Json.num 5) = ([], some PyErr.typeError) :=
  ⟨rfl, fun h => Json.noConfusion h, rfl⟩

/-- C7 (amended): `display_data` is a silent no-op (no output, no error)
for every falsy input — in particular the absent result `None` — and for
every input on which the membership test for `data` succeeds and yields
false (dicts without the key, lists without such an element, strings
without the substring); a truthy number or boolean faults on the
membership test instead. -/
theorem display_data_silent_noop :
    ∀ data : Json,
      (py_truthy data = false ∨ py_contains "data" data = Except.ok false) →
      display_data data = ([], none) := by
  intro data h
  rcases h with h | h
  · rw [display_data, if_neg (by simp [h])]
  · by_cases ht : py_truthy data = true
    · rw [display_data, if_pos ht, h]; simp
    · rw [display_data, if_neg ht]

/-- C7 witness: the absent input `None`. -/
theorem display_data_silent_noop_w : display_data Json.null = ([], none) :=
  display_data_silent_noop Json.null (Or.inl rfl)

/-- C8: whenever the top-level `data` key is present but the inner dict is
missing `workspace` or `tasks`, or some task record in the tasks list is
missing `priority` or `title`, `display_data` faults (uncaught
`KeyError`): its error component is not `none`. -/
theorem display_data_missing_inner_faults :
    ∀ (fields : List (String × Json)) (inner : Json),
      dict_lookup fields "data" = some inner →
      ((∃ innerF, inner = Json.obj innerF ∧
          (dict_lookup innerF "workspace" = none ∨
           dict_lookup innerF "tasks" = none)) ∨
       (∃ innerF ts, inner = Json.obj innerF ∧
          dict_lookup innerF "tasks" = some (Json.arr ts) ∧
          ∃ t ∈ ts, ∃ tf, t = Json.obj tf ∧
            (dict_lookup tf "priority" = none ∨ dict_lookup tf "title" = none))) →
      (display_data (Json.obj fields)).2 ≠ none := by
  intro fields inner hd hmiss h
  rcases display_data_none_cases h with hft | hfc |
    ⟨inner', w, tv, ts, hgd, hgw, hgt, hit, hrt⟩
  · cases fields with
    | nil => simp [dict_lookup] at hd
    | cons a tl => simp [py_truthy] at hft
  · have hany : fields.any (fun kv => kv.1 == "data") = true := by
      rw [dict_lookup_any, hd]; rfl
    simp [py_contains, hany] at hfc
  · rw [py_getitem, hd] at hgd
    have hinner : inner = inner' := by
      simpa using hgd
    subst hinner
    rcases hmiss with ⟨innerF, hio, hwk | htk⟩ | ⟨innerF, ts', hio, htk, t, htm, tf, hto, hpk | htik⟩
    · subst hio
      rw [py_getitem, hwk] at hgw
      simp at hgw
    · subst hio
      rw [py_getitem, htk] at hgt
      simp at hgt
    · subst hio
      rw [py_getitem, htk] at hgt
      have htv : Json.arr ts' = tv := by simpa using hgt
      subst htv
      have hts : ts' = ts := by simpa [py_iter] using hit
      subst hts
      obtain ⟨p, ti, hp, hti⟩ := render_tasks_none hrt t htm
      subst hto
      rw [py_getitem, hpk] at hp
      simp at hp
    · subst hio
      rw [py_getitem, htk] at hgt
      have htv : Json.arr ts' = tv := by simpa using hgt
      subst htv
      have hts : ts' = ts := by simpa [py_iter] using hit
      subst hts
      obtain ⟨p, ti, hp, hti⟩ := render_tasks_none hrt t htm
      subst hto
      rw [py_getitem, htik] at hti
      simp at hti

/-- C8 witness: `{"data": {"workspace": "W"}}` — `data` present, `tasks`
missing — faults. -/
theorem display_data_missing_inner_faults_w :
    (display_data (Json.obj [("data", Json.obj [("workspace", Json.str "W")])])).2
      ≠ none :=
  display_data_missing_inner_faults _ _ rfl
    (Or.inl ⟨[("workspace", Json.str "W")], rfl, Or.inr rfl⟩)

/-- C9 (implicit): a payload whose `data.tasks` is the empty list (with
`workspace` present) renders without fault: banner, workspace line, the
`Tasks:` header and footer, and zero task lines. -/
theorem display_data_empty_tasks :
    ∀ w : String,
      display_data (mk_payload w []) =
        (["--- E-Ink Update ---", "Workspace: " ++ w, "Tasks:",
          "--------------------"], none) := by
  intro w
  rw [display_mk_payload]
  simp

/-- C10 (counterexample): `{"config": 3}` is a present dict lacking the
top-level `data` key — rendering is indeed skipped — yet the iteration
does not complete: the sleep-duration lookup faults on the non-dict
`config` value, so the fault is not confined to absent (`None`) results. -/
theorem loop_no_data_key_fault_cex :
    dict_lookup [("config", Json.num 3)] "data" = none ∧
    display_data (Json.obj [("config", Json.num 3)]) = ([], none) ∧
    loop_iteration (Json.obj [("config", Json.num 3)])
      = ([], Except.error PyErr.attributeError) :=
  ⟨rfl, rfl, rfl⟩

/-- C10 (amended): for every present dict lacking the top-level `data`
key, rendering is skipped (no output, no error); the iteration then
completes — the sleep lookup succeeding with the configured-or-default
interval — exactly when the `config` entry, if present, is itself a dict;
otherwise the sleep lookup faults even though the payload is present. -/
theorem loop_no_data_key_skips_render :
    ∀ fields : List (String × Json),
      dict_lookup fields "data" = none →
      display_data (Json.obj fields) = ([], none) ∧
      (config_shape_ok (Json.obj fields) = true →
        ∃ w, sleep_lookup (Json.obj fields) = Except.ok w ∧
          loop_iteration (Json.obj fields) =
            (["Sleeping for " ++ py_str w ++ "s..."], Except.ok w)) := by
  intro fields hnone
  have hdisp : display_data (Json.obj fields) = ([], none) := by
    by_cases ht : py_truthy (Json.obj fields) = true
    · have hany : fields.any (fun kv => kv.1 == "data") = false := by
        rw [dict_lookup_any, hnone]; rfl
      rw [display_data, if_pos ht]
      simp [py_contains, hany]
    · rw [display_data, if_neg ht]
  refine ⟨hdisp, fun hshape => ?_⟩
  obtain ⟨w, hw⟩ := (sleep_lookup_ok_iff _).mpr hshape
  exact ⟨w, hw, by rw [loop_iteration, hdisp]; simp [hw]⟩

/-- C10 witness: the present dict `{"x": 1}` lacking `data` — rendering is
skipped and the iteration completes with the default interval. -/
theorem loop_no_data_key_skips_render_w :
    display_data (Json.obj [("x", Json.num 1)]) = ([], none) ∧
    ∃ w, sleep_lookup (Json.obj [("x", Json.num 1)]) = Except.ok w ∧
      loop_iteration (Json.obj [("x", Json.num 1)]) =
        (["Sleeping for " ++ py_str w ++ "s..."], Except.ok w) :=
  ⟨(loop_no_data_key_skips_render [("x", Json.num 1)] rfl).1,
   (loop_no_data_key_skips_render [("x", Json.num 1)] rfl).2 rfl⟩
